import Mathlib

/-!
Verification development for the café simulation program (`cofe`,
`src/cofe/31736193.py`).  The Python source is shallowly embedded: every
pure computation becomes a Lean function over exact arithmetic (`ℚ` models
Python floats, `Int`/`Nat` model Python ints), the globally seeded
pseudo-random source (`random.seed(42)` / Mersenne Twister) is modelled by
an explicit stream of naturals with a cursor (`RNG`), wall-clock reads
(`datetime.now()`) become an explicit `now : Nat` day-stamp parameter, and
fallible code (`_train_models` on an empty frame) returns `Except`.
File writes performed by `DataSaver` are external I/O and are outside the
embedded core, matching the program specification's scope.
-/

/-! ## The pseudo-random source

`random.seed(42)` fixes the Mersenne Twister stream; we model the seeded
generator as an arbitrary but fixed stream of naturals together with a
cursor.  Each Python draw (`randint`, `choices`, `choice`, `random`,
`uniform`) consumes exactly one stream element, so the sequential
consumption order of the source is preserved exactly. -/

structure RNG where
  stream : Nat → Nat
  idx : Nat

def RNG.bump (r : RNG) : RNG := ⟨r.stream, r.idx + 1⟩

def RNG.val (r : RNG) : Nat := r.stream r.idx

/-- Model of Python `random.randint(a, b)` on nonnegative ints (inclusive
bounds); faithful whenever `a ≤ b`, which is the only case in which the
original does not raise. -/
def randintN (a b : Nat) (r : RNG) : Nat × RNG :=
  (a + r.val % (b + 1 - a), r.bump)

/-- Model of Python `random.randint(a, b)` on possibly negative ints. -/
def randintZ (a b : Int) (r : RNG) : Int × RNG :=
  (a + ((r.val % (b + 1 - a).toNat : Nat) : Int), r.bump)

/-- Model of Python `random.random()`: a rational in `[0, 1)`. -/
def randomFloat (r : RNG) : ℚ × RNG :=
  (((r.val % 1000 : Nat) : ℚ) / 1000, r.bump)

/-- Model of Python `random.uniform(a, b)`: a rational in `[a, b]`. -/
def uniformQ (a b : ℚ) (r : RNG) : ℚ × RNG :=
  (a + (b - a) * ((r.val % 1001 : Nat) : ℚ) / 1000, r.bump)

def totalWeight (l : List (α × Nat)) : Nat :=
  (l.map Prod.snd).sum

/-- Walk a cumulative weight table, as `random.choices` does with its
bisection over cumulative weights. -/
def pickWeighted (l : List (α × Nat)) (t : Nat) (d : α) : α :=
  match l with
  | [] => d
  | (a, w) :: rest => if t < w then a else pickWeighted rest (t - w) d

/-- Model of single-draw Python `random.choices(population, weights)`. -/
def choicesW (l : List (α × Nat)) (d : α) (r : RNG) : α × RNG :=
  (pickWeighted l (r.val % totalWeight l) d, r.bump)

/-- Model of Python `random.choice(seq)`: uniform pick; faithful whenever
the sequence is nonempty (otherwise the original raises). -/
def choiceL (l : List α) (d : α) (r : RNG) : α × RNG :=
  (l.getD (r.val % l.length) d, r.bump)

/-- Python `int(x)` on a float: truncation toward zero. -/
def truncToward0 (q : ℚ) : Int :=
  if 0 ≤ q then ⌊q⌋ else ⌈q⌉

/-- Python `round(x, 3)`, modelled as round-half-up to 3 decimal places
(the claims under study never depend on the half-to-even tie rule). -/
def round3 (q : ℚ) : ℚ := (⌊q * 1000 + 1 / 2⌋ : ℚ) / 1000

def qMean (l : List ℚ) : ℚ := l.sum / (l.length : ℚ)

/-! ## Configuration (`CafeConfig`, source lines 13-45)

One mutable instance per session; recommendation application mutates it in
place, which we model by returning an updated copy. -/

structure CategorySettings where
  minPrice : Int
  maxPrice : Int
  costPct : ℚ
  demandElasticity : ℚ
deriving DecidableEq, Repr

structure CafeConfig where
  PRICE_SETTINGS : List (String × CategorySettings)
  PROMO_CHANCE : ℚ
  WEEKEND_PROMO_BOOST : ℚ
  KNOWN_CUSTOMER_CHANCE : ℚ
  LOYALTY_CARD_CHANCE : ℚ
  AGE_GROUP_DISTRIBUTION : List (String × Nat)
  PEAK_HOURS : List (Nat × Nat)
  DISH_NAMES : List (String × List String)
deriving DecidableEq, Repr

/-- The four-bucket quantity table `CafeConfig.QUANTITY_DISTRIBUTION`
(source line 30).  It is a configuration constant of the source. -/
def QUANTITY_DISTRIBUTION : List (Nat × Nat) := [(1, 80), (2, 15), (3, 4), (4, 1)]

def defaultCategorySettings : CategorySettings := ⟨0, 0, 0, 0⟩

/-- The literal configuration values of `CafeConfig` (source lines 17-45). -/
def defaultConfig : CafeConfig :=
  { PRICE_SETTINGS :=
      [ ("coffee",   ⟨150, 300, 30, -(12/10)⟩)
      , ("bakery",   ⟨80, 180, 30, -1⟩)
      , ("dessert",  ⟨200, 400, 35, -(8/10)⟩)
      , ("sandwich", ⟨250, 450, 40, -(15/10)⟩)
      , ("beverage", ⟨120, 220, 33, -(13/10)⟩)
      , ("tea",      ⟨100, 200, 30, -(11/10)⟩)
      , ("snack",    ⟨180, 350, 38, -(14/10)⟩) ]
  , PROMO_CHANCE := 30
  , WEEKEND_PROMO_BOOST := 20
  , KNOWN_CUSTOMER_CHANCE := 70
  , LOYALTY_CARD_CHANCE := 60
  , AGE_GROUP_DISTRIBUTION := [("18-24", 25), ("25-34", 40), ("35-44", 25), ("45-54", 10)]
  , PEAK_HOURS := [(8, 2), (9, 5), (10, 4), (11, 6), (12, 8), (13, 7), (14, 4), (15, 3), (16, 4), (17, 5), (18, 4), (19, 2)]
  , DISH_NAMES :=
      [ ("coffee",   ["Капучино", "Латте", "Американо", "Эспрессо", "Раф", "Флэт Уайт", "Мокко"])
      , ("bakery",   ["Круассан", "Маффин", "Печенье", "Бейгл", "Булочка с корицей"])
      , ("dessert",  ["Тирамису", "Чизкейк", "Брауни", "Макарон", "Эклер", "Панна котта", "Медовик"])
      , ("sandwich", ["Куриный сэндвич", "Клаб-сэндвич", "Вегетарианский сэндвич", "Сэндвич с лососем"])
      , ("beverage", ["Лимонад", "Смузи", "Айс-кофе", "Мохито безалкогольный", "Какао"])
      , ("tea",      ["Зеленый чай", "Чай с мятой", "Черный чай", "Фруктовый чай"])
      , ("snack",    ["Салат Цезарь", "Суп-пюре", "Кесадилья", "Салат Греческий"]) ] }

def lookupListD (l : List (String × List String)) (k : String) (d : List String) : List String :=
  match l with
  | [] => d
  | (a, v) :: rest => if a = k then v else lookupListD rest k d

/-- Day numbers count from `START_DATE = 2023-10-01`, a Sunday, so the
Python `weekday()` (Monday = 0) of day `d` is `(d + 6) % 7`. -/
def weekdayOf (d : Nat) : Nat := (d + 6) % 7

def weekdayNamesEn : List String := ["Mon", "Tue", "Wed", "Thu", "Fri", "Sat", "Sun"]

def weekdayNamesRu : List String := ["Пн", "Вт", "Ср", "Чт", "Пт", "Сб", "Вс"]

/-- Preparation-time ranges per category (source lines 742-747). -/
def prepTimes (category : String) : Nat × Nat :=
  if category = "coffee" then (2, 5)
  else if category = "bakery" then (1, 3)
  else if category = "dessert" then (3, 6)
  else if category = "sandwich" then (5, 10)
  else if category = "beverage" then (2, 4)
  else if category = "tea" then (1, 3)
  else if category = "snack" then (4, 8)
  else (2, 5)

def weatherOptions : List String := ["Sunny", "Cloudy", "Rainy", "Clear"]

/-! ## Transactions

`InitTransaction` is a row of the initial dataset
(`RealTimeCafeDashboard._generate_initial_data`, source lines 676-779);
`SimTransaction` is a row of a post-change regenerated dataset
(`RealTimeCafeSimulator._generate_simulated_data`, source lines 458-503).
A timestamp is kept as its day number plus the replaced hour/minute. -/

structure InitTransaction where
  transaction_id : Nat
  timestampDay : Nat
  hour : Nat
  minute : Nat
  client_id : Option Nat
  age_group : Option String
  is_loyalty : Nat
  week_day : String
  is_weekend : Nat
  is_holiday : Nat
  dish_id : Nat
  dish_name : String
  dish_category : String
  price : Int
  cost : ℚ
  quantity : Nat
  weather : String
  temperature : Nat
  promo_applied : Nat
  waiter_id : Nat
  preparation_time : Nat
  rating : Option Nat
  predicted_profit_margin : ℚ
  profit : ℚ
deriving DecidableEq, Repr

structure SimTransaction where
  timestampDay : Nat
  hour : Nat
  minute : Nat
  transaction_id : Nat
  client_id : Option Nat
  dish_category : String
  dish_name : String
  price : Int
  cost : ℚ
  quantity : Nat
  profit : ℚ
  promo_applied : Nat
  predicted_profit_margin : ℚ
deriving DecidableEq, Repr

/-- Client draw of the initial generator (source lines 712-725): one joint
decision populating client id, age group and loyalty flag together. -/
def drawClient (cfg : CafeConfig) (cv : ℚ) (r : RNG) : Option Nat × Option String × Nat × RNG :=
  if cv < cfg.KNOWN_CUSTOMER_CHANCE / 100 then
    let c1 := randintN 100 999 r
    let c2 := choicesW cfg.AGE_GROUP_DISTRIBUTION "18-24" c1.2
    let c3 := randomFloat c2.2
    (some c1.1, some c2.1, if c3.1 < cfg.LOYALTY_CARD_CHANCE / 100 then 1 else 0, c3.2)
  else (none, none, 0, r)

/-- Rating draw of the initial generator (source lines 728-731). -/
def drawRating (rv : ℚ) (r : RNG) : Option Nat × RNG :=
  if rv < 7 / 10 then
    let x := choicesW [(4, 50), (5, 30), (3, 20)] 4 r
    (some x.1, x.2)
  else (none, r)

/-- One loop iteration of `_generate_initial_data` (source lines 684-777);
draws are consumed in exactly the source order. -/
def initTxStep (cfg : CafeConfig) (i : Nat) (r0 : RNG) : InitTransaction × RNG :=
  let d1 := randintN 0 60 r0
  let d2 := choicesW cfg.PEAK_HOURS 0 d1.2
  let d3 := randintN 0 59 d2.2
  let d4 := choiceL cfg.PRICE_SETTINGS ("coffee", defaultCategorySettings) d3.2
  let d5 := choiceL (lookupListD cfg.DISH_NAMES d4.1.1 ["Неизвестно"]) "Неизвестно" d4.2
  let d6 := randintZ d4.1.2.minPrice d4.1.2.maxPrice d5.2
  let cost : ℚ := (d6.1 : ℚ) * d4.1.2.costPct / 100
  let d7 := choicesW [(1, 80), (2, 15), (3, 5)] 1 d6.2
  let d8 := randomFloat d7.2
  let d9 := randomFloat d8.2
  let dc := drawClient cfg d9.1 d9.2
  let d10 := randomFloat dc.2.2.2
  let dr := drawRating d10.1 d10.2
  let d11 := randintN 1 10 dr.2
  let d12 := randintN (prepTimes d4.1.1).1 (prepTimes d4.1.1).2 d11.2
  let d13 := randintN 100 500 d12.2
  let d14 := choiceL weatherOptions "Sunny" d13.2
  let d15 := randintN 15 25 d14.2
  ({ transaction_id := 1000 + i
   , timestampDay := d1.1
   , hour := d2.1
   , minute := d3.1
   , client_id := dc.1
   , age_group := dc.2.1
   , is_loyalty := dc.2.2.1
   , week_day := weekdayNamesEn.getD (weekdayOf d1.1) "Mon"
   , is_weekend := if 5 ≤ weekdayOf d1.1 then 1 else 0
   , is_holiday := 0
   , dish_id := d13.1
   , dish_name := d5.1
   , dish_category := d4.1.1
   , price := d6.1
   , cost := cost
   , quantity := d7.1
   , weather := d14.1
   , temperature := d15.1
   , promo_applied := if d8.1 < cfg.PROMO_CHANCE / 100 then 1 else 0
   , waiter_id := d11.1
   , preparation_time := d12.1
   , rating := dr.1
   , predicted_profit_margin := round3 (if 0 < d6.1 then ((d6.1 : ℚ) - cost) / (d6.1 : ℚ) else 0)
   , profit := ((d6.1 : ℚ) - cost) * (d7.1 : ℚ) }, d15.2)

def genInitialAux (cfg : CafeConfig) : Nat → Nat → RNG → List InitTransaction
  | 0, _, _ => []
  | k + 1, i, r =>
    let s := initTxStep cfg i r
    s.1 :: genInitialAux cfg k (i + 1) s.2

/-- `RealTimeCafeDashboard._generate_initial_data` (source lines 676-779):
`nRows` rows (`CafeConfig.N_ROWS = 500` in the driver), starting from the
reseeded stream. -/
def generateInitialData (cfg : CafeConfig) (r : RNG) (nRows : Nat) : List InitTransaction :=
  genInitialAux cfg nRows 0 r

/-- The part of one `_generate_simulated_data` loop iteration (source
lines 467-498) that does not depend on the wall clock; the timestamp day
is filled in by `simTxStep`. -/
def simTxCore (cfg : CafeConfig) (i : Nat) (r0 : RNG) : SimTransaction × RNG :=
  let d1 := choicesW cfg.PEAK_HOURS 0 r0
  let d2 := randintN 0 59 d1.2
  let d3 := choiceL cfg.PRICE_SETTINGS ("coffee", defaultCategorySettings) d2.2
  let d4 := randintZ d3.1.2.minPrice d3.1.2.maxPrice d3.2
  let cost : ℚ := (d4.1 : ℚ) * d3.1.2.costPct / 100
  let d5 := choicesW [(1, 80), (2, 15), (3, 5)] 1 d4.2
  let d6 := randomFloat d5.2
  let dc : Option Nat × RNG :=
    if d6.1 < cfg.KNOWN_CUSTOMER_CHANCE / 100 then
      let c1 := randintN 1000 9999 d6.2
      (some c1.1, c1.2)
    else (none, d6.2)
  let d7 := choiceL (lookupListD cfg.DISH_NAMES d3.1.1 ["Неизвестно"]) "Неизвестно" dc.2
  let d8 := randomFloat d7.2
  ({ timestampDay := 0
   , hour := d1.1
   , minute := d2.1
   , transaction_id := 10000 + i
   , client_id := dc.1
   , dish_category := d3.1.1
   , dish_name := d7.1
   , price := d4.1
   , cost := cost
   , quantity := d5.1
   , profit := ((d4.1 : ℚ) - cost) * (d5.1 : ℚ)
   , promo_applied := if d8.1 < cfg.PROMO_CHANCE / 100 then 1 else 0
   , predicted_profit_margin := if 0 < d4.1 then ((d4.1 : ℚ) - cost) / (d4.1 : ℚ) else 0 }, d8.2)

/-- One loop iteration of `_generate_simulated_data`: the transaction date
is `datetime.now() + timedelta(days = i / 50)`, modelled by the call-time
day-stamp `now` plus `i / 50`. -/
def simTxStep (cfg : CafeConfig) (now i : Nat) (r : RNG) : SimTransaction × RNG :=
  let s := simTxCore cfg i r
  ({ s.1 with timestampDay := now + i / 50 }, s.2)

def genSimAux (cfg : CafeConfig) (now : Nat) : Nat → Nat → RNG → List SimTransaction
  | 0, _, _ => []
  | k + 1, i, r =>
    let s := simTxStep cfg now i r
    s.1 :: genSimAux cfg now k (i + 1) s.2

/-- `RealTimeCafeSimulator._generate_simulated_data` (source lines
458-503): `days * 50` rows; `np.random.seed(42)` / `random.seed(42)` at
the start of every call is modelled by every call starting from the same
fixed stream `r`. -/
def generateSimulatedData (cfg : CafeConfig) (now : Nat) (r : RNG) (days : Nat) : List SimTransaction :=
  genSimAux cfg now (days * 50) 0 r

/-! ## Association-list and grouping helpers -/

def lookupOpt [DecidableEq κ] : List (κ × α) → κ → Option α
  | [], _ => none
  | (a, b) :: rest, k => if a = k then some b else lookupOpt rest k

def lookupD [DecidableEq κ] : List (κ × ℚ) → κ → ℚ
  | [], _ => 0
  | (a, b) :: rest, k => if a = k then b else lookupD rest k

def dedupFirstAux [DecidableEq α] : List α → List α → List α
  | _, [] => []
  | seen, x :: xs => if x ∈ seen then dedupFirstAux seen xs else x :: dedupFirstAux (x :: seen) xs

/-- Distinct values of a list, keeping first occurrences. -/
def dedupFirst [DecidableEq α] (l : List α) : List α := dedupFirstAux [] l

/-! ## The forecast model (`DemandForecastModel`, source lines 161-248) -/

structure MeanTables where
  categoryQuantityMeans : List (String × ℚ)
  categoryProfitMeans : List (String × ℚ)
  hourlyQuantityMeans : List (Nat × ℚ)
  hourlyProfitMeans : List (Nat × ℚ)
  weekdayQuantityMeans : List (Nat × ℚ)
  weekdayProfitMeans : List (Nat × ℚ)
deriving DecidableEq, Repr

def emptyMeanTables : MeanTables := ⟨[], [], [], [], [], []⟩

def dailyCategorySum (l : List InitTransaction) (day : Nat) (cat : String) (f : InitTransaction → ℚ) : ℚ :=
  ((l.filter (fun t => t.timestampDay = day ∧ t.dish_category = cat)).map f).sum

/-- Per-category mean over daily `(date, dish_category)` group sums
(source lines 178-186). -/
def categoryMeansOf (l : List InitTransaction) (f : InitTransaction → ℚ) : List (String × ℚ) :=
  (dedupFirst (l.map (fun t => t.dish_category))).map (fun cat =>
    let days := dedupFirst ((l.filter (fun t => t.dish_category = cat)).map (fun t => t.timestampDay))
    (cat, qMean (days.map (fun d => dailyCategorySum l d cat f))))

/-- Per-hour transaction means (source lines 189-195). -/
def hourlyMeansOf (l : List InitTransaction) (f : InitTransaction → ℚ) : List (Nat × ℚ) :=
  (dedupFirst (l.map (fun t => t.hour))).map (fun h =>
    (h, qMean (((l.filter (fun t => t.hour = h)).map f))))

/-- Per-weekday transaction means (source lines 198-203). -/
def weekdayMeansOf (l : List InitTransaction) (f : InitTransaction → ℚ) : List (Nat × ℚ) :=
  (dedupFirst (l.map (fun t => weekdayOf t.timestampDay))).map (fun w =>
    (w, qMean (((l.filter (fun t => weekdayOf t.timestampDay = w)).map f))))

/-- `DemandForecastModel._train_models` (source lines 168-203).  The very
first statement evaluates `df['timestamp'].iloc[0]`, which raises
`IndexError` on an empty historical collection; that failure is the
`Except.error` branch. -/
def trainModels (hist : List InitTransaction) : Except String MeanTables :=
  match hist with
  | [] => Except.error "IndexError: single positional indexer is out-of-bounds"
  | _ =>
    Except.ok
      { categoryQuantityMeans := categoryMeansOf hist (fun t => (t.quantity : ℚ))
      , categoryProfitMeans := categoryMeansOf hist (fun t => t.profit)
      , hourlyQuantityMeans := hourlyMeansOf hist (fun t => (t.quantity : ℚ))
      , hourlyProfitMeans := hourlyMeansOf hist (fun t => t.profit)
      , weekdayQuantityMeans := weekdayMeansOf hist (fun t => (t.quantity : ℚ))
      , weekdayProfitMeans := weekdayMeansOf hist (fun t => t.profit) }

structure ChangesSummary where
  price_changes : List (String × ℚ)
  promo_increase : Option ℚ
  new_customers_pct : Option ℚ
deriving DecidableEq, Repr

def emptyChanges : ChangesSummary := ⟨[], none, none⟩

/-- `base_daily_profit` (source line 209). -/
def baseDailyProfit (hist : List InitTransaction) : ℚ :=
  if hist.isEmpty then 10000 else qMean (hist.map (fun t => t.profit)) * 50

/-- The per-entry price-change multiplier of `forecast_demand` (source
lines 216-218): `quantity_change = elasticity * pct / 100`,
`profit_change = (1 + pct/100) * (1 + quantity_change) - 1`, damped
by `0.3`. -/
def priceChangeFactor (elasticity pct : ℚ) : ℚ :=
  1 + ((1 + pct / 100) * (1 + elasticity * (pct / 100)) - 1) * (3 / 10)

/-- The `adjusted_profit` accumulator of `forecast_demand` (source lines
209-226).  A price-change entry is applied only when its category occurs
in the trained per-category profit table (source line 214); the elasticity
is read from the configuration's `PRICE_SETTINGS` (source line 215; the
`getD` default is unreachable in the program because trained categories
always come from generated transactions, whose categories are
configuration keys). -/
def forecastAdjustedProfit (tables : MeanTables) (cfg : CafeConfig)
    (hist : List InitTransaction) (changes : ChangesSummary) : ℚ :=
  let base := baseDailyProfit hist
  let afterPrice := changes.price_changes.foldl
    (fun acc cp =>
      if (lookupOpt tables.categoryProfitMeans cp.1).isSome then
        acc * priceChangeFactor
          ((lookupOpt cfg.PRICE_SETTINGS cp.1).getD defaultCategorySettings).demandElasticity cp.2
      else acc) base
  let afterPromo :=
    match changes.promo_increase with
    | some p => afterPrice * (1 + min (p * (15 / 100)) (1 / 2))
    | none => afterPrice
  match changes.new_customers_pct with
  | some c => afterPromo * (1 + c * (8 / 10) / 100)
  | none => afterPromo

/-- The per-day weekday factor of `forecast_demand` (source lines 233-234):
`weekday_profit_mean / base` when the looked-up mean is present and truthy
(non-zero) and the base is positive, and `1.0` otherwise. -/
def weekdayFactor (tables : MeanTables) (base : ℚ) (wd : Nat) : ℚ :=
  match lookupOpt tables.weekdayProfitMeans wd with
  | some w => if w ≠ 0 ∧ 0 < base then w / base else 1
  | none => 1

structure ForecastRow where
  date : Nat
  day : Nat
  weekday : String
  predicted_profit : ℚ
  predicted_customers : Int
  predicted_revenue : ℚ
deriving DecidableEq, Repr

def forecastRowsAux (tables : MeanTables) (adjusted base custDiv : ℚ) (now : Nat) :
    Nat → Nat → RNG → List ForecastRow
  | 0, _, _ => []
  | k + 1, i, r =>
    let u := uniformQ (-(15 / 100)) (15 / 100) r
    let wd := weekdayOf (now + i)
    let daily := adjusted * weekdayFactor tables base wd * (1 + u.1)
    { date := now + i
    , day := i + 1
    , weekday := weekdayNamesRu.getD wd "Пн"
    , predicted_profit := daily
    , predicted_customers := truncToward0 (daily / custDiv)
    , predicted_revenue := daily / (3 / 10) } :: forecastRowsAux tables adjusted base custDiv now k (i + 1) u.2

/-- `DemandForecastModel.forecast_demand` (source lines 205-248); `now` is
the day-stamp of `datetime.now().date()`, `r` the current (not reseeded)
global random state used for the per-day jitter draws. -/
def forecastDemand (tables : MeanTables) (cfg : CafeConfig) (hist : List InitTransaction)
    (days : Nat) (changes : ChangesSummary) (now : Nat) (r : RNG) : List ForecastRow :=
  forecastRowsAux tables (forecastAdjustedProfit tables cfg hist changes) (baseDailyProfit hist)
    (if hist.isEmpty then 200 else qMean (hist.map (fun t => t.profit))) now days 0 r

/-! ## Recommendations (`RealTimeCafeSimulator.apply_recommendation`,
source lines 337-422) -/

inductive RecParams where
  | price_change (category : String) (change_pct : ℚ)
  | promo_campaign (discount : ℚ) (duration : ℚ)
  | happy_hours (hours : String) (discount : ℚ)
  | menu_change (action : String) (dish : String)
  | loyalty_program (improvement : String)
deriving DecidableEq, Repr

structure Effects where
  profit_impact : ℚ
  customer_impact : ℚ
  description : String
deriving DecidableEq, Repr

structure ChangeRecord where
  timestamp : Nat
  recommendation : RecParams
  effects : Effects
deriving DecidableEq, Repr

def hasCategory (cfg : CafeConfig) (cat : String) : Bool :=
  (lookupOpt cfg.PRICE_SETTINGS cat).isSome

/-- In-place scaling of a category's price bounds (source lines 354-355);
Python `int()` truncates toward zero. -/
def scaleSettings (s : CategorySettings) (pct : ℚ) : CategorySettings :=
  { s with minPrice := truncToward0 ((s.minPrice : ℚ) * (1 + pct / 100))
         , maxPrice := truncToward0 ((s.maxPrice : ℚ) * (1 + pct / 100)) }

/-- Model of the Python f-string rendering of a number. -/
def qToString (q : ℚ) : String := toString q

/-- The effect computation and configuration mutation of
`apply_recommendation` (source lines 340-408), one case per
recommendation kind. -/
def apply_recommendation (cfg : CafeConfig) (rec : RecParams) : Effects × CafeConfig :=
  match rec with
  | RecParams.price_change category change_pct =>
    if hasCategory cfg category then
      let cfg2 := { cfg with PRICE_SETTINGS :=
        cfg.PRICE_SETTINGS.map (fun p => if p.1 = category then (p.1, scaleSettings p.2 change_pct) else p) }
      if 0 < change_pct then
        (⟨(8 / 100) * change_pct, -((5 / 100) * |change_pct|),
          "Цены на " ++ category ++ " изменены на " ++ qToString change_pct ++ "%"⟩, cfg2)
      else
        (⟨-((3 / 100) * |change_pct|), (8 / 100) * |change_pct|,
          "Скидка на " ++ category ++ " " ++ qToString |change_pct| ++ "%"⟩, cfg2)
    else
      (⟨0, 0, "Категория " ++ category ++ " не найдена"⟩, cfg)
  | RecParams.promo_campaign discount duration =>
    (⟨-(1 / 10), 25 / 100,
      "Акция: скидка " ++ qToString discount ++ "% на " ++ qToString duration ++ " дней"⟩,
     { cfg with PROMO_CHANCE := min 100 (cfg.PROMO_CHANCE + 30) })
  | RecParams.happy_hours hours discount =>
    (⟨15 / 100, 20 / 100, "Счастливые часы " ++ hours ++ " со скидкой " ++ qToString discount ++ "%"⟩, cfg)
  | RecParams.menu_change action dish =>
    if action = "add" then (⟨5 / 100, 3 / 100, "Добавлено новое блюдо: " ++ dish⟩, cfg)
    else if action = "remove" then (⟨2 / 100, -(1 / 100), "Удалено блюдо: " ++ dish⟩, cfg)
    else (⟨0, 0, ""⟩, cfg)
  | RecParams.loyalty_program improvement =>
    (⟨12 / 100, 15 / 100, "Улучшена программа лояльности: " ++ improvement⟩,
     { cfg with LOYALTY_CARD_CHANCE := min 100 (cfg.LOYALTY_CARD_CHANCE + 20) })

/-- The `RealTimeCafeSimulator` state touched by the embedded core: the
historical collection, the configuration, the append-only change log and
the trained forecast tables.  (`DataSaver` writes and the post-change
dataset regeneration it triggers are external I/O with no effect on this
state.) -/
structure SimulatorState where
  historical_data : List InitTransaction
  config : CafeConfig
  applied_changes : List ChangeRecord
  forecast_model : MeanTables
deriving Repr

/-- `apply_recommendation` at the simulator level (source lines 337-422):
computes the effect, mutates the configuration, and unconditionally
appends one `ChangeRecord` (source lines 410-417). -/
def applyRecommendationS (s : SimulatorState) (rec : RecParams) (now : Nat) : Effects × SimulatorState :=
  let ec := apply_recommendation s.config rec
  (ec.1, { s with config := ec.2,
                  applied_changes := s.applied_changes ++ [⟨now, rec, ec.1⟩] })

/-! ## `get_forecast` (source lines 505-529) -/

def addToSummary : List (String × ℚ) → String → ℚ → List (String × ℚ)
  | [], k, x => [(k, x)]
  | (a, b) :: rest, k, x => if a = k then (a, b + x) :: rest else (a, b) :: addToSummary rest k x

/-- Python `l[-5:]`. -/
def takeLast (n : Nat) (l : List α) : List α := l.drop (l.length - n)

/-- The `changes_summary` construction of `get_forecast` (source lines
508-522): fold over the last 5 change records of any kind, accumulating
per-category percent sums for the `price_change` ones, then overlay the
scenario values. -/
def buildChangesSummary (log : List ChangeRecord) (scenario : Option String) : ChangesSummary :=
  let pcs := (takeLast 5 log).foldl
    (fun acc c =>
      match c.recommendation with
      | RecParams.price_change cat pct => addToSummary acc cat pct
      | _ => acc) []
  let s1 : ChangesSummary := ⟨pcs, none, none⟩
  if scenario = some "optimistic" then
    { s1 with new_customers_pct := some 20, promo_increase := some 10 }
  else if scenario = some "pessimistic" then
    { s1 with new_customers_pct := some (-10), promo_increase := some (-5) }
  else s1

structure ForecastRowC where
  base : ForecastRow
  cumulative_profit : ℚ
deriving DecidableEq, Repr

/-- The `forecast['cumulative_profit'] = forecast['predicted_profit'].cumsum()`
column (source line 527). -/
def addCumulative : ℚ → List ForecastRow → List ForecastRowC
  | _, [] => []
  | acc, row :: rest =>
    let c := acc + row.predicted_profit
    ⟨row, c⟩ :: addCumulative c rest

/-- `RealTimeCafeSimulator.get_forecast` (source lines 505-529). -/
def get_forecast (s : SimulatorState) (days : Nat) (scenario : Option String)
    (now : Nat) (r : RNG) : List ForecastRowC :=
  addCumulative 0
    (forecastDemand s.forecast_model s.config s.historical_data days
      (buildChangesSummary s.applied_changes scenario) now r)

/-! ## Current-state summary (`RealTimeCafeSimulator._get_current_state`,
source lines 286-335)

`_get_current_state` works on the historical pandas frame through an
*alias* (`df = self.historical_data`, no copy), so the `df['date'] = ...`
assignment on source line 306/308 writes into the shared collection.  A
frame is modelled as a list of rows, each an association list of column
name to cell value; the function returns the summary together with the
post-call state of the input collection. -/

inductive Val where
  | vi : Int → Val
  | vq : ℚ → Val
  | vs : String → Val
  | vnone : Val
deriving DecidableEq, Repr

abbrev Row := List (String × Val)

def rowGet (row : Row) (c : String) : Option Val := lookupOpt row c

/-- Column presence (`c in df.columns`). -/
def hasCol (df : List Row) (c : String) : Bool :=
  df.any (fun row => (rowGet row c).isSome)

def valToQ : Val → Option ℚ
  | Val.vi n => some ((n : ℚ))
  | Val.vq q => some q
  | _ => none

/-- The non-null numeric values of a column (pandas aggregations skip
nulls). -/
def colQ (df : List Row) (c : String) : List ℚ :=
  df.filterMap (fun row => (rowGet row c).bind valToQ)

def colStrings (df : List Row) (c : String) : List String :=
  df.filterMap (fun row =>
    match rowGet row c with
    | some (Val.vs s) => some s
    | _ => none)

def notNone : Val → Bool
  | Val.vnone => false
  | _ => true

/-- `df['client_id'].dropna()`. -/
def clientVals (df : List Row) : List Val :=
  (df.filterMap (fun row => rowGet row "client_id")).filter notNone

/-- Set or overwrite one cell of a row (`df[c] = ...` restricted to the
row). -/
def rowSet (row : Row) (c : String) (v : Val) : Row :=
  if (lookupOpt row c).isSome then
    row.map (fun p => if p.1 = c then (p.1, v) else p)
  else row ++ [(c, v)]

/-- Timestamp of a row, when present and parseable as a date. -/
def tsOfRow (row : Row) : Option Int :=
  match rowGet row "timestamp" with
  | some (Val.vi d) => some d
  | _ => none

def allTsValid (df : List Row) : Bool := df.all (fun row => (tsOfRow row).isSome)

/-- The in-place `df['date'] = pd.to_datetime(df['timestamp']).dt.date`
assignment (source lines 306-308). -/
def setDateColumn (df : List Row) : List Row :=
  df.map (fun row =>
    rowSet row "date" (match tsOfRow row with | some d => Val.vi d | none => Val.vnone))

/-- `df.groupby('date')['profit'].sum()` followed by `.mean()` (source
lines 310-311). -/
def avgDailyProfitOf (df : List Row) : ℚ :=
  let days := dedupFirst (df.filterMap tsOfRow)
  qMean (days.map (fun d =>
    ((df.filter (fun row => tsOfRow row = some d)).filterMap
      (fun row => (rowGet row "profit").bind valToQ)).sum))

def countOcc [DecidableEq α] (l : List α) (x : α) : Nat :=
  (l.filter (fun y => y = x)).length

/-- `series.mode().iloc[0]`: the most frequent value; pandas sorts the
modes, so ties resolve to the smallest value. -/
def modeMin (l : List String) : String :=
  match l with
  | [] => "N/A"
  | x :: _ =>
    (dedupFirst l).foldl
      (fun acc c =>
        if countOcc l acc < countOcc l c ∨ (countOcc l c = countOcc l acc ∧ compare c acc = Ordering.lt)
        then c else acc) x

structure CurrentState where
  avg_daily_profit : ℚ
  avg_ticket : ℚ
  customer_count : Nat
  conversion_rate : ℚ
  top_category : String
  promo_rate : ℚ
  avg_rating : ℚ
  total_transactions : Nat
  total_profit : ℚ
deriving DecidableEq, Repr

/-- `RealTimeCafeSimulator._get_current_state` (source lines 286-335).
Returns the computed summary together with the historical collection as it
stands after the call (the `date` column assignment mutates it in place
when the frame is nonempty, has a `timestamp` column and the timestamps
parse; on a parse failure the `except` branch takes
`mean(profit) * 3` instead and nothing is written). -/
def getCurrentState (df : List Row) : CurrentState × List Row :=
  let n := df.length
  let totalProfit := if 0 < n then (colQ df "profit").sum else 0
  if n = 0 then
    (⟨0, 0, 0, 0, "N/A", 0, 0, n, totalProfit⟩, df)
  else
    let dfAndDaily : List Row × ℚ :=
      if hasCol df "timestamp" then
        if allTsValid df then (setDateColumn df, avgDailyProfitOf df)
        else (df, qMean (colQ df "profit") * 3)
      else (df, 0)
    let ticket := if hasCol df "price" then qMean (colQ df "price") else 0
    let custAndConv : Nat × ℚ :=
      if hasCol df "client_id" then
        ((dedupFirst (clientVals df)).length, ((clientVals df).length : ℚ) / (n : ℚ))
      else ((truncToward0 ((n : ℚ) * (7 / 10))).toNat, 7 / 10)
    let top := if hasCol df "dish_category" then modeMin (colStrings df "dish_category") else "N/A"
    let promo := if hasCol df "promo_applied" then qMean (colQ df "promo_applied") else 0
    let rating :=
      if hasCol df "rating" ∧ colQ df "rating" ≠ [] then qMean (colQ df "rating") else 0
    (⟨dfAndDaily.2, ticket, custAndConv.1, custAndConv.2, top, promo, rating, n, totalProfit⟩,
     dfAndDaily.1)

/-! ## Concrete fixtures used by counterexamples and witnesses -/

def rngZero : RNG := ⟨fun _ => 0, 0⟩

/-- A stream that yields 99 exactly at the quantity draw (index 6) of the
first initial-dataset row and 0 everywhere else. -/
def rng99 : RNG := ⟨fun n => if n = 6 then 99 else 0, 0⟩

/-- A plain historical transaction used as a one-row history fixture. -/
def txSample : InitTransaction :=
  { transaction_id := 1000, timestampDay := 0, hour := 12, minute := 0
  , client_id := none, age_group := none, is_loyalty := 0
  , week_day := "Sun", is_weekend := 1, is_holiday := 0
  , dish_id := 100, dish_name := "Капучино", dish_category := "coffee"
  , price := 200, cost := 60, quantity := 1
  , weather := "Sunny", temperature := 20, promo_applied := 0
  , waiter_id := 1, preparation_time := 2, rating := none
  , predicted_profit_margin := 7 / 10, profit := 140 }

def sampleState : SimulatorState := ⟨[txSample], defaultConfig, [], emptyMeanTables⟩

/-- The first transaction of `generateInitialData defaultConfig rngZero 1`. -/
def sampleInitTx : InitTransaction :=
  { transaction_id := 1000, timestampDay := 0, hour := 8, minute := 0
  , client_id := some 100, age_group := some "18-24", is_loyalty := 1
  , week_day := "Sun", is_weekend := 1, is_holiday := 0
  , dish_id := 100, dish_name := "Капучино", dish_category := "coffee"
  , price := 150, cost := 45, quantity := 1
  , weather := "Sunny", temperature := 15, promo_applied := 1
  , waiter_id := 1, preparation_time := 2, rating := some 4
  , predicted_profit_margin := 7 / 10, profit := 105 }

/-- The first transaction of `generateSimulatedData defaultConfig 0 rngZero 1`. -/
def sampleSimTx : SimTransaction :=
  { timestampDay := 0, hour := 8, minute := 0, transaction_id := 10000
  , client_id := some 1000, dish_category := "coffee", dish_name := "Капучино"
  , price := 150, cost := 45, quantity := 1, profit := 105
  , promo_applied := 1, predicted_profit_margin := 7 / 10 }

/-! ## Derived and specification-side definitions used by the theorems -/

/-- The spec's configuration invariant: `min_price ≤ max_price` for every
category, and the promo and loyalty probabilities lie within `[0, 100]`. -/
def invariantHolds (cfg : CafeConfig) : Bool :=
  cfg.PRICE_SETTINGS.all (fun p => decide (p.2.minPrice ≤ p.2.maxPrice)) &&
  decide (0 ≤ cfg.PROMO_CHANCE) && decide (cfg.PROMO_CHANCE ≤ 100) &&
  decide (0 ≤ cfg.LOYALTY_CARD_CHANCE) && decide (cfg.LOYALTY_CARD_CHANCE ≤ 100)

/-- A recommendation whose price-change percentage (if any) is at least
`-100`, so the scaling factor `1 + pct/100` stays nonnegative. -/
def recSafe (rec : RecParams) : Bool :=
  match rec with
  | RecParams.price_change _ pct => decide ((-100 : ℚ) ≤ pct)
  | _ => true

/-- Repeated recommendation application (configuration component only). -/
def applySeq (cfg : CafeConfig) (recs : List RecParams) : CafeConfig :=
  recs.foldl (fun c rec => (apply_recommendation c rec).2) cfg

/-- Projection dropping the only wall-clock-dependent field. -/
def eraseDay (t : SimTransaction) : SimTransaction := { t with timestampDay := 0 }

/-- The per-category percent sum over the price-change records of a log
segment — the specification's "summing percent changes per category". -/
def pctSumFor (cat : String) (l : List ChangeRecord) : ℚ :=
  (l.filterMap (fun c =>
    match c.recommendation with
    | RecParams.price_change c2 p => if c2 = cat then some p else none
    | _ => none)).sum

/-- The running prefix sum of a list, in order. -/
def prefixSums : List ℚ → List ℚ
  | [] => []
  | x :: xs => x :: (prefixSums xs).map (fun y => x + y)

/-- The claim's literal reading of the summary construction: fold the last
five ChangeRecords *of kind price_change* (filter first, then take the
last five). -/
def changesSummaryLast5OfKind (log : List ChangeRecord) : List (String × ℚ) :=
  (takeLast 5 (log.filter (fun c =>
    match c.recommendation with
    | RecParams.price_change _ _ => true
    | _ => false))).foldl
    (fun acc c =>
      match c.recommendation with
      | RecParams.price_change cat pct => addToSummary acc cat pct
      | _ => acc) []

def zeroEffects : Effects := ⟨0, 0, ""⟩

/-- One price change followed by five promo campaigns: the code's window
(last five records of any kind) contains no price change, while the last
five price-change records contain the coffee one. -/
def logC6 : List ChangeRecord :=
  [ ⟨0, RecParams.price_change "coffee" 10, zeroEffects⟩
  , ⟨1, RecParams.promo_campaign 15 7, zeroEffects⟩
  , ⟨2, RecParams.promo_campaign 15 7, zeroEffects⟩
  , ⟨3, RecParams.promo_campaign 15 7, zeroEffects⟩
  , ⟨4, RecParams.promo_campaign 15 7, zeroEffects⟩
  , ⟨5, RecParams.promo_campaign 15 7, zeroEffects⟩ ]

/-- Promo multiplier (source lines 220-222): capped at `+50%`. -/
def promoFactorOf (changes : ChangesSummary) : ℚ :=
  match changes.promo_increase with
  | some p => 1 + min (p * (15 / 100)) (1 / 2)
  | none => 1

/-- New-customers multiplier (source lines 224-226). -/
def custFactorOf (changes : ChangesSummary) : ℚ :=
  match changes.new_customers_pct with
  | some c => 1 + c * (8 / 10) / 100
  | none => 1

/-- Product of the per-entry price-change multipliers, restricted to the
entries whose category occurs in the trained per-category profit table. -/
def priceFactorsGuarded (tables : MeanTables) (cfg : CafeConfig) (changes : ChangesSummary) : ℚ :=
  (changes.price_changes.map (fun cp =>
    if (lookupOpt tables.categoryProfitMeans cp.1).isSome then
      priceChangeFactor
        ((lookupOpt cfg.PRICE_SETTINGS cp.1).getD defaultCategorySettings).demandElasticity cp.2
    else 1)).prod

/-- The claim's unguarded reading: every price-change entry contributes
its multiplier, whether or not its category was trained. -/
def priceFactorsAll (cfg : CafeConfig) (changes : ChangesSummary) : ℚ :=
  (changes.price_changes.map (fun cp =>
    priceChangeFactor
      ((lookupOpt cfg.PRICE_SETTINGS cp.1).getD defaultCategorySettings).demandElasticity cp.2)).prod

/-- Trained tables whose per-category profit table knows only coffee, and
a summary with a price change on tea (a configured but untrained
category). -/
def tablesC7 : MeanTables := ⟨[], [("coffee", 1)], [], [], [], []⟩

def changesC7 : ChangesSummary := ⟨[("tea", 10)], none, none⟩

/-- The claim's per-transaction property as a checker: some configured
category pair carries the transaction's category, brackets its price, and
its cost and profit satisfy the exact formulas. -/
def checkInitTx (cfg : CafeConfig) (t : InitTransaction) : Bool :=
  cfg.PRICE_SETTINGS.any (fun p =>
    decide (p.1 = t.dish_category) && decide (p.2.minPrice ≤ t.price) &&
    decide (t.price ≤ p.2.maxPrice) &&
    decide (t.cost = (t.price : ℚ) * p.2.costPct / 100) &&
    decide (t.profit = ((t.price : ℚ) - t.cost) * (t.quantity : ℚ)))

def checkSimTx (cfg : CafeConfig) (t : SimTransaction) : Bool :=
  cfg.PRICE_SETTINGS.any (fun p =>
    decide (p.1 = t.dish_category) && decide (p.2.minPrice ≤ t.price) &&
    decide (t.price ≤ p.2.maxPrice) &&
    decide (t.cost = (t.price : ℚ) * p.2.costPct / 100) &&
    decide (t.profit = ((t.price : ℚ) - t.cost) * (t.quantity : ℚ)))

def RNG.bumpN (r : RNG) : Nat → RNG
  | 0 => r
  | k + 1 => (r.bumpN k).bump

def dfC9 : List Row := [[("timestamp", Val.vi 5), ("profit", Val.vq 100)]]

/-! ## C3: unknown-category price change is an atomic no-op -/

/-- C3: for every category name absent from the configuration's category
mapping, applying a `price_change` recommendation returns the zero-impact
effect with the "category not found" description, leaves the whole
configuration (and the rest of the simulator state) unchanged, and still
appends exactly one `ChangeRecord` to the change log. -/
theorem C3_unknown_category_noop (s : SimulatorState) (category : String) (pct : ℚ) (now : Nat)
    (h : hasCategory s.config category = false) :
    (applyRecommendationS s (RecParams.price_change category pct) now).1 =
      ⟨0, 0, "Категория " ++ category ++ " не найдена"⟩ ∧
    (applyRecommendationS s (RecParams.price_change category pct) now).2.config = s.config ∧
    (applyRecommendationS s (RecParams.price_change category pct) now).2.historical_data =
      s.historical_data ∧
    (applyRecommendationS s (RecParams.price_change category pct) now).2.forecast_model =
      s.forecast_model ∧
    (applyRecommendationS s (RecParams.price_change category pct) now).2.applied_changes =
      s.applied_changes ++ [⟨now, RecParams.price_change category pct,
        ⟨0, 0, "Категория " ++ category ++ " не найдена"⟩⟩] := by
  simp [applyRecommendationS, apply_recommendation, h]

/-- Witness for C3 at the concrete unknown category `"pizza"`. -/
theorem C3_unknown_category_noop_witness :
    hasCategory sampleState.config "pizza" = false ∧
    ((applyRecommendationS sampleState (RecParams.price_change "pizza" 10) 0).1 =
        ⟨0, 0, "Категория " ++ "pizza" ++ " не найдена"⟩ ∧
      (applyRecommendationS sampleState (RecParams.price_change "pizza" 10) 0).2.config =
        sampleState.config ∧
      (applyRecommendationS sampleState (RecParams.price_change "pizza" 10) 0).2.historical_data =
        sampleState.historical_data ∧
      (applyRecommendationS sampleState (RecParams.price_change "pizza" 10) 0).2.forecast_model =
        sampleState.forecast_model ∧
      (applyRecommendationS sampleState (RecParams.price_change "pizza" 10) 0).2.applied_changes =
        sampleState.applied_changes ++ [⟨0, RecParams.price_change "pizza" 10,
          ⟨0, 0, "Категория " ++ "pizza" ++ " не найдена"⟩⟩]) :=
  ⟨by decide, C3_unknown_category_noop sampleState "pizza" 10 0 (by decide)⟩

/-! ## C10: frame of `apply_recommendation` -/

/-- C10: every recommendation application leaves the historical collection
and the trained forecast tables unchanged, appends exactly one record to
the change log, and touches no configuration field other than the per-
category price bounds, the promo chance and the loyalty chance: customer
chance, weekend boost, age-group table, peak hours, dish names, and every
category's name, cost fraction and elasticity are preserved. -/
theorem C10_apply_recommendation_frame (s : SimulatorState) (rec : RecParams) (now : Nat) :
    (applyRecommendationS s rec now).2.historical_data = s.historical_data ∧
    (applyRecommendationS s rec now).2.forecast_model = s.forecast_model ∧
    (applyRecommendationS s rec now).2.applied_changes =
      s.applied_changes ++ [⟨now, rec, (applyRecommendationS s rec now).1⟩] ∧
    (applyRecommendationS s rec now).2.config.KNOWN_CUSTOMER_CHANCE =
      s.config.KNOWN_CUSTOMER_CHANCE ∧
    (applyRecommendationS s rec now).2.config.WEEKEND_PROMO_BOOST =
      s.config.WEEKEND_PROMO_BOOST ∧
    (applyRecommendationS s rec now).2.config.AGE_GROUP_DISTRIBUTION =
      s.config.AGE_GROUP_DISTRIBUTION ∧
    (applyRecommendationS s rec now).2.config.PEAK_HOURS = s.config.PEAK_HOURS ∧
    (applyRecommendationS s rec now).2.config.DISH_NAMES = s.config.DISH_NAMES ∧
    (applyRecommendationS s rec now).2.config.PRICE_SETTINGS.map
        (fun p => (p.1, p.2.costPct, p.2.demandElasticity)) =
      s.config.PRICE_SETTINGS.map (fun p => (p.1, p.2.costPct, p.2.demandElasticity)) := by
  refine ⟨rfl, rfl, rfl, ?_, ?_, ?_, ?_, ?_, ?_⟩ <;>
    rcases rec with ⟨c, p⟩ | ⟨d, u⟩ | ⟨hh, d⟩ | ⟨a, d⟩ | im <;>
    simp only [applyRecommendationS, apply_recommendation] <;>
    split_ifs <;>
    simp only [List.map_map] <;>
    try rfl
  all_goals
    refine List.map_congr_left ?_
    intro q _
    by_cases hq : q.1 = c <;> simp [hq, scaleSettings, Function.comp]

/-! ## C2: configuration invariant under recommendation sequences -/

theorem truncToward0_intCast (n : ℤ) : truncToward0 ((n : ℤ) : ℚ) = n := by
  unfold truncToward0
  split_ifs <;> simp

theorem truncToward0_mono {a b : ℚ} (h : a ≤ b) : truncToward0 a ≤ truncToward0 b := by
  unfold truncToward0
  split_ifs with ha hb hb
  · exact Int.floor_le_floor h
  · exact absurd (le_trans ha h) hb
  · have h1 : ⌈a⌉ ≤ 0 := Int.ceil_le.mpr (by exact_mod_cast le_of_not_le ha)
    have h2 : (0 : Int) ≤ ⌊b⌋ := Int.floor_nonneg.mpr hb
    omega
  · exact Int.ceil_le_ceil h

theorem scaleSettings_le {s : CategorySettings} {pct : ℚ}
    (hs : s.minPrice ≤ s.maxPrice) (hp : (-100 : ℚ) ≤ pct) :
    (scaleSettings s pct).minPrice ≤ (scaleSettings s pct).maxPrice := by
  have hf : (0 : ℚ) ≤ 1 + pct / 100 := by linarith
  have hmul : (s.minPrice : ℚ) * (1 + pct / 100) ≤ (s.maxPrice : ℚ) * (1 + pct / 100) :=
    mul_le_mul_of_nonneg_right (by exact_mod_cast hs) hf
  exact truncToward0_mono hmul

theorem apply_recommendation_invariant (cfg : CafeConfig) (rec : RecParams)
    (hsafe : recSafe rec = true) (hinv : invariantHolds cfg = true) :
    invariantHolds (apply_recommendation cfg rec).2 = true := by
  simp only [invariantHolds, Bool.and_eq_true, List.all_eq_true, decide_eq_true_eq] at hinv
  obtain ⟨⟨⟨⟨hmm, hp0⟩, hp1⟩, hl0⟩, hl1⟩ := hinv
  rcases rec with ⟨c, p⟩ | ⟨d, u⟩ | ⟨hh, d⟩ | ⟨a, d⟩ | im
  · simp only [recSafe, decide_eq_true_eq] at hsafe
    simp only [apply_recommendation]
    have hmap : ∀ q ∈ cfg.PRICE_SETTINGS.map
        (fun q0 => if q0.1 = c then (q0.1, scaleSettings q0.2 p) else q0),
        q.2.minPrice ≤ q.2.maxPrice := by
      intro q hq
      rw [List.mem_map] at hq
      obtain ⟨q0, hq0, rfl⟩ := hq
      by_cases hqc : q0.1 = c
      · rw [if_pos hqc]
        exact scaleSettings_le (hmm q0 hq0) hsafe
      · rw [if_neg hqc]
        exact hmm q0 hq0
    split_ifs with hc hpos <;>
      simp only [invariantHolds, Bool.and_eq_true, List.all_eq_true, decide_eq_true_eq] <;>
      exact ⟨⟨⟨⟨by first | exact hmap | exact hmm, hp0⟩, hp1⟩, hl0⟩, hl1⟩
  · simp only [apply_recommendation, invariantHolds, Bool.and_eq_true, List.all_eq_true,
      decide_eq_true_eq]
    exact ⟨⟨⟨⟨hmm, le_min (by norm_num) (by linarith)⟩, min_le_left _ _⟩, hl0⟩, hl1⟩
  · simp only [apply_recommendation, invariantHolds, Bool.and_eq_true, List.all_eq_true,
      decide_eq_true_eq]
    exact ⟨⟨⟨⟨hmm, hp0⟩, hp1⟩, hl0⟩, hl1⟩
  · simp only [apply_recommendation, invariantHolds, Bool.and_eq_true, List.all_eq_true,
      decide_eq_true_eq]
    split_ifs <;> exact ⟨⟨⟨⟨hmm, hp0⟩, hp1⟩, hl0⟩, hl1⟩
  · simp only [apply_recommendation, invariantHolds, Bool.and_eq_true, List.all_eq_true,
      decide_eq_true_eq]
    exact ⟨⟨⟨⟨hmm, hp0⟩, hp1⟩, le_min (by norm_num) (by linarith)⟩, min_le_left _ _⟩

/-- Counterexample to C2 as stated: a single `price_change` of `-200`
percent (allowed by "any percent change") on the default configuration
flips the coffee bounds to `min = -150 > max = -300`, violating the
invariant. -/
theorem C2_counterexample :
    invariantHolds defaultConfig = true ∧
    invariantHolds (applySeq defaultConfig [RecParams.price_change "coffee" (-200)]) = false := by
  refine ⟨by decide, ?_⟩
  show invariantHolds
    (apply_recommendation defaultConfig (RecParams.price_change "coffee" (-200))).2 = false
  have hs : scaleSettings ⟨150, 300, 30, -(12/10)⟩ (-200) =
      (⟨-150, -300, 30, -(12/10)⟩ : CategorySettings) := by
    unfold scaleSettings
    rw [show ((150 : ℤ) : ℚ) * (1 + (-200 : ℚ) / 100) = ((-150 : ℤ) : ℚ) by norm_num]
    rw [show ((300 : ℤ) : ℚ) * (1 + (-200 : ℚ) / 100) = ((-300 : ℤ) : ℚ) by norm_num]
    rw [truncToward0_intCast, truncToward0_intCast]
  have hhc : hasCategory defaultConfig "coffee" = true := by decide
  simp only [apply_recommendation, hhc, if_true, apply_ite Prod.snd, ite_self]
  simp only [defaultConfig]
  simp +decide only [List.map_cons, List.map_nil]
  rw [hs]
  decide

/-- C2 (amended): under every sequence of the five recommendation kinds in
which each price change is by at least `-100` percent, the invariant
`min_price ≤ max_price` together with both probabilities staying in
`[0, 100]` is preserved from any configuration satisfying it. -/
theorem C2_invariant_preserved (recs : List RecParams) (cfg : CafeConfig)
    (hsafe : recs.all recSafe = true) (hinv : invariantHolds cfg = true) :
    invariantHolds (applySeq cfg recs) = true := by
  induction recs generalizing cfg with
  | nil => exact hinv
  | cons rec rest ih =>
    simp only [List.all_cons, Bool.and_eq_true] at hsafe
    exact ih _ hsafe.2 (apply_recommendation_invariant cfg rec hsafe.1 hinv)

/-- Witness for C2 (amended): a concrete safe sequence on the default
configuration. -/
theorem C2_invariant_preserved_witness :
    ([RecParams.price_change "coffee" 10, RecParams.promo_campaign 15 7,
        RecParams.loyalty_program "карта"].all recSafe = true) ∧
    invariantHolds defaultConfig = true ∧
    invariantHolds (applySeq defaultConfig
      [RecParams.price_change "coffee" 10, RecParams.promo_campaign 15 7,
        RecParams.loyalty_program "карта"]) = true :=
  ⟨by decide, by decide,
    C2_invariant_preserved _ defaultConfig (by decide) (by decide)⟩

/-! ## C1: which quantity table each generator samples from -/

theorem pickWeighted_qty3 (t : Nat) :
    pickWeighted [(1, 80), (2, 15), (3, 5)] t 1 = 1 ∨
    pickWeighted [(1, 80), (2, 15), (3, 5)] t 1 = 2 ∨
    pickWeighted [(1, 80), (2, 15), (3, 5)] t 1 = 3 := by
  simp only [pickWeighted]
  split_ifs <;> omega

theorem choicesW_qty3 (r : RNG) :
    (choicesW [(1, 80), (2, 15), (3, 5)] 1 r).1 = 1 ∨
    (choicesW [(1, 80), (2, 15), (3, 5)] 1 r).1 = 2 ∨
    (choicesW [(1, 80), (2, 15), (3, 5)] 1 r).1 = 3 :=
  pickWeighted_qty3 _

theorem initTxStep_quantity (cfg : CafeConfig) (i : Nat) (r : RNG) :
    ∃ r2, (initTxStep cfg i r).1.quantity = (choicesW [(1, 80), (2, 15), (3, 5)] 1 r2).1 :=
  ⟨_, rfl⟩

theorem simTxStep_quantity (cfg : CafeConfig) (now i : Nat) (r : RNG) :
    ∃ r2, (simTxStep cfg now i r).1.quantity = (choicesW [(1, 80), (2, 15), (3, 5)] 1 r2).1 :=
  ⟨_, rfl⟩

theorem mem_genInitialAux {cfg : CafeConfig} {t : InitTransaction} :
    ∀ {k i : Nat} {r : RNG}, t ∈ genInitialAux cfg k i r →
      ∃ j r2, t = (initTxStep cfg j r2).1 := by
  intro k
  induction k with
  | zero => intro i r h; simp [genInitialAux] at h
  | succ k ih =>
    intro i r h
    simp only [genInitialAux, List.mem_cons] at h
    rcases h with h | h
    · exact ⟨i, r, h⟩
    · exact ih h

theorem mem_genSimAux {cfg : CafeConfig} {now : Nat} {t : SimTransaction} :
    ∀ {k i : Nat} {r : RNG}, t ∈ genSimAux cfg now k i r →
      ∃ j r2, t = (simTxStep cfg now j r2).1 := by
  intro k
  induction k with
  | zero => intro i r h; simp [genSimAux] at h
  | succ k ih =>
    intro i r h
    simp only [genSimAux, List.mem_cons] at h
    rcases h with h | h
    · exact ⟨i, r, h⟩
    · exact ih h

/-- Counterexample to C1 as stated: at the quantity draw of the very
first initial-dataset row (stream position 6, drawn value 99) the
generated quantity is 3, whereas sampling the four-bucket configuration
table `QUANTITY_DISTRIBUTION` from the same pseudo-random state yields 4 —
so initial-dataset generation does not sample quantity from the
four-bucket table. -/
theorem C1_counterexample :
    ((generateInitialData defaultConfig rng99 1).map (fun t => t.quantity) = [3]) ∧
    (choicesW QUANTITY_DISTRIBUTION 1 ⟨rng99.stream, 6⟩).1 = 4 ∧ (3 : Nat) ≠ 4 := by
  refine ⟨by decide, by decide, by decide⟩

/-- C1 (amended): both call sites — initial-dataset generation and
recommendation-driven regeneration — sample quantity from the three-bucket
table `[1: 80, 2: 15, 3: 5]`; in particular every generated quantity
is 1, 2 or 3 (the four-bucket table's bucket 4 is never produced). -/
theorem C1_quantity_three_bucket (cfg : CafeConfig) (r : RNG) (n now days : Nat) :
    ((generateInitialData cfg r n).all fun t =>
      decide (t.quantity = 1 ∨ t.quantity = 2 ∨ t.quantity = 3)) = true ∧
    ((generateSimulatedData cfg now r days).all fun t =>
      decide (t.quantity = 1 ∨ t.quantity = 2 ∨ t.quantity = 3)) = true := by
  constructor
  · rw [List.all_eq_true]
    intro t ht
    rw [decide_eq_true_eq]
    obtain ⟨j, r2, rfl⟩ := mem_genInitialAux ht
    obtain ⟨r3, hq⟩ := initTxStep_quantity cfg j r2
    rw [hq]
    exact choicesW_qty3 r3
  · rw [List.all_eq_true]
    intro t ht
    rw [decide_eq_true_eq]
    obtain ⟨j, r2, rfl⟩ := mem_genSimAux ht
    obtain ⟨r3, hq⟩ := simTxStep_quantity cfg now j r2
    rw [hq]
    exact choicesW_qty3 r3

/-! ## C5: determinism of regeneration relative to the wall clock -/

theorem genSimAux_eraseDay (cfg : CafeConfig) (now₁ now₂ : Nat) :
    ∀ (k i : Nat) (r : RNG),
      (genSimAux cfg now₁ k i r).map eraseDay = (genSimAux cfg now₂ k i r).map eraseDay := by
  intro k
  induction k with
  | zero => intro i r; rfl
  | succ k ih =>
    intro i r
    simp only [genSimAux, List.map_cons]
    have h1 : eraseDay (simTxStep cfg now₁ i r).1 = eraseDay (simTxStep cfg now₂ i r).1 := by
      rcases hc : simTxCore cfg i r with ⟨t, r2⟩
      cases t
      simp [simTxStep, hc, eraseDay]
    have h2 : (simTxStep cfg now₁ i r).2 = (simTxStep cfg now₂ i r).2 := rfl
    rw [h1, h2, ih]

/-- Counterexample to C5 as stated: two calls of
`_generate_simulated_data` at different wall-clock readings (`now = 0` and
`now = 1`) disagree — the timestamps carry the call time, so the output
sequences are not identical field-for-field. -/
theorem C5_counterexample :
    generateSimulatedData defaultConfig 0 rngZero 1 ≠
      generateSimulatedData defaultConfig 1 rngZero 1 := by
  intro h
  have h2 := congrArg (fun l => (l.map (fun t => t.timestampDay)).head?) h
  exact absurd h2 (by decide)

/-- C5 (amended): for a fixed seed (the reseeded stream) and fixed
configuration, two generation calls agree on every field of every
transaction except the timestamp's date, which tracks the wall clock at
call time. -/
theorem C5_deterministic_modulo_clock (cfg : CafeConfig) (r : RNG) (days now₁ now₂ : Nat) :
    (generateSimulatedData cfg now₁ r days).map eraseDay =
      (generateSimulatedData cfg now₂ r days).map eraseDay :=
  genSimAux_eraseDay cfg now₁ now₂ (days * 50) 0 r

/-! ## C6: changes summary and cumulative profit of `get_forecast` -/

theorem lookupD_addToSummary (l : List (String × ℚ)) (k : String) (x : ℚ) (k2 : String) :
    lookupD (addToSummary l k x) k2 = lookupD l k2 + (if k2 = k then x else 0) := by
  induction l with
  | nil =>
    simp only [addToSummary, lookupD]
    rcases eq_or_ne k k2 with rfl | hne
    · simp
    · rw [if_neg hne, if_neg (Ne.symm hne)]
      simp
  | cons p rest ih =>
    rcases p with ⟨a, b⟩
    simp only [addToSummary]
    rcases eq_or_ne a k with rfl | hak
    · rw [if_pos rfl]
      simp only [lookupD]
      rcases eq_or_ne a k2 with rfl | h2
      · rw [if_pos rfl, if_pos rfl, if_pos rfl]
      · rw [if_neg h2, if_neg h2, if_neg (fun hh => h2 (hh.symm))]
        simp
    · rw [if_neg hak]
      simp only [lookupD]
      rcases eq_or_ne a k2 with rfl | h2
      · rw [if_pos rfl, if_pos rfl, if_neg hak]
        simp
      · rw [if_neg h2, if_neg h2]
        exact ih

theorem lookupD_priceFold (cat : String) :
    ∀ (l : List ChangeRecord) (acc : List (String × ℚ)),
      lookupD (l.foldl (fun acc c =>
        match c.recommendation with
        | RecParams.price_change c2 p => addToSummary acc c2 p
        | _ => acc) acc) cat = lookupD acc cat + pctSumFor cat l := by
  intro l
  induction l with
  | nil => intro acc; simp [pctSumFor]
  | cons c rest ih =>
    intro acc
    simp only [List.foldl_cons, pctSumFor, List.filterMap_cons]
    rcases hrec : c.recommendation with ⟨c2, p⟩ | ⟨d, u⟩ | ⟨hh, d⟩ | ⟨a, d⟩ | im <;>
      dsimp only <;> rw [ih]
    · rw [lookupD_addToSummary]
      rcases eq_or_ne c2 cat with rfl | hne
      · rw [if_pos rfl, if_pos rfl]
        dsimp only
        simp only [List.sum_cons, pctSumFor]
        ring
      · rw [if_neg hne, if_neg (Ne.symm hne)]
        dsimp only
        simp only [pctSumFor]
        ring
    all_goals
      simp only [pctSumFor]

theorem buildChangesSummary_price_changes (log : List ChangeRecord) (scenario : Option String) :
    (buildChangesSummary log scenario).price_changes =
      (takeLast 5 log).foldl (fun acc c =>
        match c.recommendation with
        | RecParams.price_change cat pct => addToSummary acc cat pct
        | _ => acc) [] := by
  simp only [buildChangesSummary]
  split_ifs <;> rfl

theorem addCumulative_cumul : ∀ (l : List ForecastRow) (acc : ℚ),
    (addCumulative acc l).map (fun rc => rc.cumulative_profit) =
      (prefixSums (l.map (fun row => row.predicted_profit))).map (fun y => acc + y) := by
  intro l
  induction l with
  | nil => intro acc; rfl
  | cons row rest ih =>
    intro acc
    simp only [addCumulative, List.map_cons, prefixSums]
    congr 1
    rw [ih, List.map_map]
    refine List.map_congr_left ?_
    intro y _
    simp only [Function.comp_apply]
    ring

theorem addCumulative_base : ∀ (l : List ForecastRow) (acc : ℚ),
    (addCumulative acc l).map (fun rc => rc.base) = l := by
  intro l
  induction l with
  | nil => intro acc; rfl
  | cons row rest ih =>
    intro acc
    simp only [addCumulative, List.map_cons, ih]

/-- Counterexample to C6 as stated: `get_forecast` folds the price-change
records *among the last five records of any kind*, not the last five
records of kind price_change; on `logC6` the two readings disagree. -/
theorem C6_counterexample :
    (buildChangesSummary logC6 none).price_changes = [] ∧
    changesSummaryLast5OfKind logC6 = [("coffee", 10)] ∧
    (buildChangesSummary logC6 none).price_changes ≠ changesSummaryLast5OfKind logC6 :=
  ⟨by decide, by decide, by decide⟩

/-- C6 (amended): the summary folds the price-change records among the
last 5 ChangeRecords, summing percent changes per category (so later
entries for the same category add); the summary is a pure function of the
change log and scenario; and the cumulative_profit column of
`get_forecast` is exactly the running prefix sum of predicted_profit in
day order. -/
theorem C6_summary_sum_and_cumulative :
    (∀ (log : List ChangeRecord) (scenario : Option String) (cat : String),
      lookupD (buildChangesSummary log scenario).price_changes cat =
        pctSumFor cat (takeLast 5 log)) ∧
    (∀ (s : SimulatorState) (days : Nat) (scenario : Option String) (now : Nat) (r : RNG),
      (get_forecast s days scenario now r).map (fun rc => rc.cumulative_profit) =
        prefixSums ((get_forecast s days scenario now r).map
          (fun rc => rc.base.predicted_profit))) := by
  constructor
  · intro log scenario cat
    rw [buildChangesSummary_price_changes, lookupD_priceFold]
    simp [lookupD]
  · intro s days scenario now r
    simp only [get_forecast]
    have hb : ((addCumulative 0 (forecastDemand s.forecast_model s.config s.historical_data days
          (buildChangesSummary s.applied_changes scenario) now r)).map
        (fun rc => rc.base.predicted_profit)) =
        (forecastDemand s.forecast_model s.config s.historical_data days
          (buildChangesSummary s.applied_changes scenario) now r).map
          (fun row => row.predicted_profit) := by
      rw [show (fun rc : ForecastRowC => rc.base.predicted_profit) =
            (fun row : ForecastRow => row.predicted_profit) ∘ (fun rc : ForecastRowC => rc.base)
          from rfl, ← List.map_map, addCumulative_base]
    rw [hb, addCumulative_cumul]
    rw [List.map_congr_left (fun y _ => zero_add y)]
    simp

/-! ## C7: the adjusted-profit computation of `forecast_demand` -/

theorem foldl_mul_ite_prod (f : String × ℚ → ℚ) (p : String × ℚ → Bool) :
    ∀ (l : List (String × ℚ)) (b : ℚ),
      l.foldl (fun acc cp => if p cp then acc * f cp else acc) b =
        b * (l.map (fun cp => if p cp then f cp else 1)).prod := by
  intro l
  induction l with
  | nil => intro b; simp
  | cons cp rest ih =>
    intro b
    simp only [List.foldl_cons, List.map_cons, List.prod_cons]
    by_cases hp : p cp
    · rw [if_pos hp, if_pos hp, ih]
      ring
    · rw [if_neg hp, if_neg hp, ih]
      ring

/-- Counterexample to C7 as stated: with a tea price change whose category
is missing from the trained per-category profit table, the code skips the
entry (adjusted profit stays at the base 7000), while the claim's
unconditional formula multiplies by `1 + profitChangeFactor × 0.3 =
9937/10000`. -/
theorem C7_counterexample :
    forecastAdjustedProfit tablesC7 defaultConfig [txSample] changesC7 = 7000 ∧
    baseDailyProfit [txSample] * priceFactorsAll defaultConfig changesC7 *
      promoFactorOf changesC7 * custFactorOf changesC7 = 7000 * (9937 / 10000) ∧
    (7000 : ℚ) ≠ 7000 * (9937 / 10000) := by
  refine ⟨?_, ?_, by norm_num⟩
  · simp +decide only [forecastAdjustedProfit, tablesC7, changesC7, txSample, baseDailyProfit,
      qMean, lookupOpt, List.foldl]
    norm_num
  · simp +decide only [priceFactorsAll, changesC7, txSample, baseDailyProfit, qMean, lookupOpt,
      defaultConfig, promoFactorOf, custFactorOf, priceChangeFactor, defaultCategorySettings,
      List.map_cons, List.map_nil, List.prod_cons, List.prod_nil]
    norm_num

/-- C7 (amended): the adjusted profit equals the base daily profit times
the product of per-price-change multipliers `1 + profitChangeFactor × 0.3`
(with `quantityChange = elasticity × pct/100` and `profitChangeFactor =
(1+pct/100)(1+quantityChange) − 1`) — applied only to entries whose
category occurs in the trained per-category profit table — times the
promo factor `1 + min(p × 0.15, 0.5)` (capped at 50%), times the
new-customer factor `1 + c × 0.8/100`. -/
theorem C7_adjusted_profit_formula (tables : MeanTables) (cfg : CafeConfig)
    (hist : List InitTransaction) (changes : ChangesSummary) :
    forecastAdjustedProfit tables cfg hist changes =
      baseDailyProfit hist * priceFactorsGuarded tables cfg changes *
        promoFactorOf changes * custFactorOf changes := by
  simp only [forecastAdjustedProfit, priceFactorsGuarded, promoFactorOf, custFactorOf]
  rw [foldl_mul_ite_prod
    (fun cp =>
      priceChangeFactor
        ((lookupOpt cfg.PRICE_SETTINGS cp.1).getD defaultCategorySettings).demandElasticity cp.2)
    (fun cp => (lookupOpt tables.categoryProfitMeans cp.1).isSome)]
  rcases changes.promo_increase with _ | p <;> rcases changes.new_customers_pct with _ | c <;>
    dsimp only <;> ring

/-! ## C8: price bounds and exact profit of generated transactions -/

theorem choiceL_mem {α : Type} (l : List α) (d : α) (r : RNG) (h : l ≠ []) :
    (choiceL l d r).1 ∈ l := by
  have hlen : 0 < l.length := List.length_pos.mpr h
  have hidx : r.val % l.length < l.length := Nat.mod_lt _ hlen
  simp only [choiceL, List.getD_eq_getElem?_getD, List.getElem?_eq_getElem hidx,
    Option.getD_some]
  exact List.getElem_mem hidx

theorem randintZ_bounds {a b : Int} (r : RNG) (h : a ≤ b) :
    a ≤ (randintZ a b r).1 ∧ (randintZ a b r).1 ≤ b := by
  have htn : ((b + 1 - a).toNat : Int) = b + 1 - a := Int.toNat_of_nonneg (by omega)
  have htp : 0 < (b + 1 - a).toNat := by omega
  have hmod : r.val % (b + 1 - a).toNat < (b + 1 - a).toNat := Nat.mod_lt _ htp
  have h2 : ((r.val % (b + 1 - a).toNat : Nat) : Int) < b + 1 - a := by
    rw [← htn]
    exact_mod_cast hmod
  have h3 : (0 : Int) ≤ ((r.val % (b + 1 - a).toNat : Nat) : Int) := Int.natCast_nonneg _
  simp only [randintZ]
  omega

theorem initTxStep_price_fields (cfg : CafeConfig) (i : Nat) (r : RNG) :
    ∃ (r2 r3 : RNG),
      (initTxStep cfg i r).1.dish_category =
        (choiceL cfg.PRICE_SETTINGS ("coffee", defaultCategorySettings) r2).1.1 ∧
      (initTxStep cfg i r).1.price =
        (randintZ (choiceL cfg.PRICE_SETTINGS ("coffee", defaultCategorySettings) r2).1.2.minPrice
          (choiceL cfg.PRICE_SETTINGS ("coffee", defaultCategorySettings) r2).1.2.maxPrice r3).1 ∧
      (initTxStep cfg i r).1.cost =
        ((initTxStep cfg i r).1.price : ℚ) *
          (choiceL cfg.PRICE_SETTINGS ("coffee", defaultCategorySettings) r2).1.2.costPct / 100 ∧
      (initTxStep cfg i r).1.profit =
        (((initTxStep cfg i r).1.price : ℚ) - (initTxStep cfg i r).1.cost) *
          ((initTxStep cfg i r).1.quantity : ℚ) :=
  ⟨_, _, rfl, rfl, rfl, rfl⟩

theorem simTxStep_price_fields (cfg : CafeConfig) (now i : Nat) (r : RNG) :
    ∃ (r2 r3 : RNG),
      (simTxStep cfg now i r).1.dish_category =
        (choiceL cfg.PRICE_SETTINGS ("coffee", defaultCategorySettings) r2).1.1 ∧
      (simTxStep cfg now i r).1.price =
        (randintZ (choiceL cfg.PRICE_SETTINGS ("coffee", defaultCategorySettings) r2).1.2.minPrice
          (choiceL cfg.PRICE_SETTINGS ("coffee", defaultCategorySettings) r2).1.2.maxPrice r3).1 ∧
      (simTxStep cfg now i r).1.cost =
        ((simTxStep cfg now i r).1.price : ℚ) *
          (choiceL cfg.PRICE_SETTINGS ("coffee", defaultCategorySettings) r2).1.2.costPct / 100 ∧
      (simTxStep cfg now i r).1.profit =
        (((simTxStep cfg now i r).1.price : ℚ) - (simTxStep cfg now i r).1.cost) *
          ((simTxStep cfg now i r).1.quantity : ℚ) :=
  ⟨_, _, rfl, rfl, rfl, rfl⟩

theorem initTxStep_check (cfg : CafeConfig) (i : Nat) (r : RNG)
    (hne : cfg.PRICE_SETTINGS ≠ [])
    (hmm : ∀ p ∈ cfg.PRICE_SETTINGS, p.2.minPrice ≤ p.2.maxPrice) :
    checkInitTx cfg (initTxStep cfg i r).1 = true := by
  obtain ⟨r2, r3, hcat, hprice, hcost, hprofit⟩ := initTxStep_price_fields cfg i r
  have hmem : (choiceL cfg.PRICE_SETTINGS ("coffee", defaultCategorySettings) r2).1 ∈
      cfg.PRICE_SETTINGS := choiceL_mem _ _ _ hne
  have hb := randintZ_bounds r3 (hmm _ hmem)
  simp only [checkInitTx, List.any_eq_true, Bool.and_eq_true, decide_eq_true_eq]
  refine ⟨_, hmem, ⟨⟨⟨⟨hcat.symm, ?_⟩, ?_⟩, hcost⟩, hprofit⟩⟩
  · rw [hprice]
    exact hb.1
  · rw [hprice]
    exact hb.2

theorem simTxStep_check (cfg : CafeConfig) (now i : Nat) (r : RNG)
    (hne : cfg.PRICE_SETTINGS ≠ [])
    (hmm : ∀ p ∈ cfg.PRICE_SETTINGS, p.2.minPrice ≤ p.2.maxPrice) :
    checkSimTx cfg (simTxStep cfg now i r).1 = true := by
  obtain ⟨r2, r3, hcat, hprice, hcost, hprofit⟩ := simTxStep_price_fields cfg now i r
  have hmem : (choiceL cfg.PRICE_SETTINGS ("coffee", defaultCategorySettings) r2).1 ∈
      cfg.PRICE_SETTINGS := choiceL_mem _ _ _ hne
  have hb := randintZ_bounds r3 (hmm _ hmem)
  simp only [checkSimTx, List.any_eq_true, Bool.and_eq_true, decide_eq_true_eq]
  refine ⟨_, hmem, ⟨⟨⟨⟨hcat.symm, ?_⟩, ?_⟩, hcost⟩, hprofit⟩⟩
  · rw [hprice]
    exact hb.1
  · rw [hprice]
    exact hb.2

/-- C8: for every valid configuration (nonempty category list, ordered
price bounds), every transaction of the initial generator and of the
regeneration generator has its price within the `[min_price, max_price]`
bounds of its own category, with `cost = price × cost_fraction` and
`profit = (price − cost) × quantity` exactly. -/
theorem C8_price_cost_profit (cfg : CafeConfig) (r : RNG) (n now days : Nat)
    (hne : cfg.PRICE_SETTINGS ≠ [])
    (hmm : ∀ p ∈ cfg.PRICE_SETTINGS, p.2.minPrice ≤ p.2.maxPrice) :
    ((generateInitialData cfg r n).all (checkInitTx cfg) = true) ∧
    ((generateSimulatedData cfg now r days).all (checkSimTx cfg) = true) := by
  constructor
  · rw [List.all_eq_true]
    intro t ht
    obtain ⟨j, r2, rfl⟩ := mem_genInitialAux ht
    exact initTxStep_check cfg j r2 hne hmm
  · rw [List.all_eq_true]
    intro t ht
    obtain ⟨j, r2, rfl⟩ := mem_genSimAux ht
    exact simTxStep_check cfg 0 j r2 hne hmm

/-- Witness for C8 on the default configuration. -/
theorem C8_price_cost_profit_witness :
    (defaultConfig.PRICE_SETTINGS ≠ []) ∧
    (∀ p ∈ defaultConfig.PRICE_SETTINGS, p.2.minPrice ≤ p.2.maxPrice) ∧
    ((generateInitialData defaultConfig rngZero 1).all (checkInitTx defaultConfig) = true) ∧
    ((generateSimulatedData defaultConfig 0 rngZero 1).all (checkSimTx defaultConfig) = true) := by
  refine ⟨by decide, by decide, ?_, ?_⟩
  · exact (C8_price_cost_profit defaultConfig rngZero 1 0 1 (by decide) (by decide)).1
  · exact (C8_price_cost_profit defaultConfig rngZero 1 0 1 (by decide) (by decide)).2

/-! ## C4: forecasting from an empty history -/

theorem RNG.bumpN_bump (r : RNG) : ∀ j, (r.bump).bumpN j = (r.bumpN j).bump := by
  intro j
  induction j with
  | zero => rfl
  | succ j ih => simp only [RNG.bumpN, ih]

theorem weekdayFactor_empty (base : ℚ) (wd : Nat) : weekdayFactor emptyMeanTables base wd = 1 :=
  rfl

theorem forecastRowsAux_profit_empty (adjusted custDiv : ℚ) (now : Nat) :
    ∀ (k i : Nat) (r : RNG),
      (forecastRowsAux emptyMeanTables adjusted 10000 custDiv now k i r).map
          (fun row => row.predicted_profit) =
        (List.range k).map (fun j =>
          adjusted * (1 + (uniformQ (-(15 / 100)) (15 / 100) (r.bumpN j)).1)) := by
  intro k
  induction k with
  | zero => intro i r; rfl
  | succ k ih =>
    intro i r
    rw [List.range_succ_eq_map]
    simp only [List.map_cons, List.map_map]
    show (adjusted * weekdayFactor emptyMeanTables 10000 (weekdayOf (now + i)) *
        (1 + (uniformQ (-(15 / 100)) (15 / 100) r).1)) ::
        ((forecastRowsAux emptyMeanTables adjusted 10000 custDiv now k (i + 1)
          (uniformQ (-(15 / 100)) (15 / 100) r).2).map (fun row => row.predicted_profit)) = _
    congr 1
    · rw [weekdayFactor_empty, mul_one]
      rfl
    · rw [ih]
      refine List.map_congr_left ?_
      intro j hj
      show adjusted * (1 + (uniformQ (-(15 / 100)) (15 / 100) ((r.bump).bumpN j)).1) = _
      rw [RNG.bumpN_bump]
      rfl

/-- C4: training on an empty historical collection raises (the
`IndexError` of `df['timestamp'].iloc[0]`), so the graceful-degradation
path of `forecast_demand` is unreachable end-to-end; `forecast_demand`
itself, with empty tables and empty history, does return exactly 7 rows
whose predicted profit derives from the fixed default base 10000 with
every day's weekday factor equal to 1. -/
theorem C4_empty_history_defaults :
    trainModels [] = Except.error "IndexError: single positional indexer is out-of-bounds" ∧
    (∀ (wd : Nat), weekdayFactor emptyMeanTables (baseDailyProfit []) wd = 1) ∧
    (∀ (now : Nat) (r : RNG),
      (forecastDemand emptyMeanTables defaultConfig [] 7 emptyChanges now r).length = 7 ∧
      (forecastDemand emptyMeanTables defaultConfig [] 7 emptyChanges now r).map
          (fun row => row.predicted_profit) =
        (List.range 7).map (fun j =>
          10000 * (1 + (uniformQ (-(15 / 100)) (15 / 100) (r.bumpN j)).1))) := by
  refine ⟨rfl, fun wd => rfl, ?_⟩
  intro now r
  have h := forecastRowsAux_profit_empty 10000 200 now 7 0 r
  constructor
  · have hlen := congrArg List.length h
    show (forecastRowsAux emptyMeanTables 10000 10000 200 now 7 0 r).length = 7
    simpa using hlen
  · exact h

/-! ## C9: the current-state summary mutates its input -/

/-- C9 (evaluating the code at the failing input): on a one-row historical
collection with a timestamp column, `_get_current_state` hands back the
collection with a `date` column written into it — the original cells are
preserved, but the collection is not left unmodified. -/
theorem C9_get_current_state_mutates :
    (getCurrentState dfC9).2 =
      [[("timestamp", Val.vi 5), ("profit", Val.vq 100), ("date", Val.vi 5)]] ∧
    (getCurrentState dfC9).2 ≠ dfC9 :=
  ⟨by decide, by decide⟩
